import Mathlib

/-!
Shallow embedding of the `flux-mcp` repository's adapter (`src/flux_adapter.py`)
and tool layer (`src/main.py`) in Lean 4, together with proofs of the frozen
claims about them.

Modelling conventions:
* JSON values are `JVal`; JSON objects are association lists `List (String × JVal)`
  in insertion order (the remote service and the adapter only exchange JSON
  objects at top level, so HTTP bodies are modelled as objects directly).
* Machine floats (`time.time()` readings, backoff durations, `guidance_scale`)
  are modelled as `ℚ`.
* HTTP I/O is modelled by oracles: each POST attempt's outcome is given by a
  function `Nat → PostOutcome` (attempt index ↦ outcome), each GET download by a
  `FetchOutcome`, and the poll loop by a finite trace of loop-head observations
  `(elapsed, outcome)` where `elapsed` is the value of `time.time() - start` at
  the top of the `while` loop.  Real time strictly increases by at least the
  0.5 s sleep per iteration, so every execution makes finitely many
  observations with `elapsed < max_wait`; an exhausted trace is therefore read
  as "time has passed `max_wait`".
* Python exceptions are modelled by `Except` with structured error values
  (spec taxonomy names); the text of `str(e)` is abbreviated by
  `AdapterError.message`, since no claim inspects message contents.
-/

/-- JSON values exchanged with the remote service.  (JSON arrays never occur in
the adapter's payloads or in any claim, so they are omitted.) -/
inductive JVal where
  | null
  | bool (b : Bool)
  | num (q : ℚ)
  | str (s : String)
  | obj (fields : List (String × JVal))

/-- `d.get(k)` on a Python dict (JSON object): first binding of `k`, if any. -/
def jlookup (fields : List (String × JVal)) (k : String) : Option JVal :=
  (fields.find? (fun p => p.1 = k)).map (fun p => p.2)

/-- Python truthiness of a JSON value (`not sample` in `_generate_sync`). -/
def JVal.falsy : JVal → Bool
  | .null => true
  | .bool b => !b
  | .num q => q = 0
  | .str s => s = ""
  | .obj fields => fields.isEmpty

/-- `result.get("result", {})` followed by use as a dict: the nested result
payload, empty when absent.  (A non-object `result` field would raise an
uncaught `AttributeError` in the source; the remote protocol only sends
objects there, so that path is outside the model.) -/
def getResultObj (result : List (String × JVal)) : List (String × JVal) :=
  match jlookup result "result" with
  | some (.obj fields) => fields
  | _ => []

/-- `result.get("status") == s` for a string literal `s` (Python `==` between a
JSON value and a `str` is true only for equal strings). -/
def isStatusStr (result : List (String × JVal)) (s : String) : Bool :=
  match jlookup result "status" with
  | some (.str t) => t = s
  | _ => false

/-! ### Base64 (`base64.b64encode`) -/

/-- The standard base64 alphabet. -/
def b64Alphabet : List Char :=
  "ABCDEFGHIJKLMNOPQRSTUVWXYZabcdefghijklmnopqrstuvwxyz0123456789+/".toList

def b64Char (n : Nat) : Char := b64Alphabet.getD n 'A'

/-- Standard base64 encoding with `=` padding, over bytes given as `Nat`s
(< 256). -/
def base64Encode : List Nat → String
  | [] => ""
  | [a] =>
      String.mk [b64Char (a / 4), b64Char (a % 4 * 16)] ++ "=="
  | [a, b] =>
      String.mk [b64Char (a / 4), b64Char (a % 4 * 16 + b / 16),
        b64Char (b % 16 * 4)] ++ "="
  | a :: b :: c :: rest =>
      String.mk [b64Char (a / 4), b64Char (a % 4 * 16 + b / 16),
        b64Char (b % 16 * 4 + c / 64), b64Char (c % 64)] ++ base64Encode rest

/-! ### Path helpers (`pathlib`, POSIX flavour) -/

/-- `Path(p).name`: the final path component (empty and `.` components are
dropped by `pathlib`). -/
def pathName (p : String) : String :=
  (((p.splitOn "/").filter (fun s => s ≠ "" && s ≠ ".")).getLast?).getD ""

/-- Index of the last `.` in a character list, if any (Python `str.rfind`). -/
def rfindDot (cs : List Char) : Option Nat :=
  match cs.reverse.indexOf? '.' with
  | none => none
  | some j => some (cs.length - 1 - j)

/-- `PurePath.suffix` of a name: `name[i:]` for the last dot position `i` when
`0 < i < len(name) - 1`, else `""`. -/
def pySuffix (name : String) : String :=
  let cs := name.toList
  match rfindDot cs with
  | none => ""
  | some i => if 0 < i ∧ i < cs.length - 1 then String.mk (cs.drop i) else ""

/-- `s.rstrip("/")`. -/
def rstripSlash (s : String) : String :=
  String.mk ((s.toList.reverse.dropWhile (fun c => c = '/')).reverse)

/-- Python `s.startswith(pre)` (kernel-computable, character-list based). -/
def strStartsWith (s pre : String) : Bool :=
  pre.toList.isPrefixOf s.toList

/-- The lowercased, dot-stripped extension of a reference:
`Path(p).suffix.lower().lstrip(".")`. -/
def pyExt (p : String) : String :=
  String.mk (((pySuffix (pathName p)).toList.map Char.toLower).dropWhile
    (fun c => c = '.'))

/-! ### Generation-path image normalization (`FluxAdapter._to_data_url_if_needed`)

The local filesystem is modelled as `fs : String → Option (List Nat)`:
`fs p = some bytes` when `Path(p).is_file()` and reading it yields `bytes`. -/

def toDataUrlIfNeeded (fs : String → Option (List Nat)) (path_or_url : String) :
    String :=
  if strStartsWith path_or_url "data:" || strStartsWith path_or_url "http://" ||
      strStartsWith path_or_url "https://" then
    path_or_url
  else
    match fs path_or_url with
    | none => path_or_url
    | some bytes =>
        let ext0 := pyExt path_or_url
        let ext := if ext0 = "" then "png" else ext0
        let mime := if ext = "png" then "image/png" else "image/" ++ ext
        "data:" ++ mime ++ ";base64," ++ base64Encode bytes

/-! ### Adapter configuration (`FluxAdapter.__init__`) -/

/-- The immutable configuration held by a constructed `FluxAdapter`.
Field defaults mirror the Python constructor's keyword defaults;
`base_url` is stored already `rstrip("/")`-ed, as the constructor does. -/
structure AdapterConfig where
  model : String
  use_raw_mode : Bool
  base_url : String := rstripSlash "https://api.bfl.ai"
  aspect_ratio : Option String := some "16:9"
  width : Int := 1024
  height : Int := 1024
  safety_tolerance : Int := 6
  prompt_upsampling : Bool := false
  poll_timeout : ℚ := 180
  max_post_retries : Nat := 3

/-- Python truthiness of an `Optional[str]` (`if self.aspect_ratio:` etc.). -/
def strTruthy : Option String → Bool
  | none => false
  | some s => s ≠ ""

/-- `f"{self.base_url}/v1/{self.model}"` — the generation submission endpoint. -/
def generateEndpoint (cfg : AdapterConfig) : String :=
  cfg.base_url ++ "/v1/" ++ cfg.model

/-- `f"{self.base_url}/v1/flux-kontext-pro"` — the edit submission endpoint
(independent of the configured model). -/
def editEndpoint (cfg : AdapterConfig) : String :=
  cfg.base_url ++ "/v1/flux-kontext-pro"

/-! ### Submission with retries (`FluxAdapter._post_with_retries`) -/

/-- Outcome of one `self._session.post(...)` call: a read timeout, some other
`requests.RequestException` (connection error, etc.), or an HTTP response with
a status code and a parsed JSON object body. -/
inductive PostOutcome where
  | readTimeout
  | connectionError
  | resp (status : Nat) (body : List (String × JVal))

/-- The exception recorded in `last_exc` for a failed attempt (an HTTP error
status raised by `resp.raise_for_status()` is a `requests.HTTPError`, also a
`RequestException`). -/
inductive PostExc where
  | readTimeout
  | connectionError
  | httpError (status : Nat)

/-- `raise_for_status` raises exactly for 4xx and 5xx codes. -/
def raisesForStatus (s : Nat) : Bool := 400 ≤ s && s < 600

def PostOutcome.failure : PostOutcome → Option PostExc
  | .readTimeout => some .readTimeout
  | .connectionError => some .connectionError
  | .resp s _ => if raisesForStatus s then some (.httpError s) else none

/-- Result of running `_post_with_retries`: the returned body or the re-raised
last exception (`.error none` is the `assert last_exc is not None` failing,
reachable only with a zero retry budget), plus the number of POST requests
issued and the `time.sleep` backoff durations performed, in seconds. -/
structure PostResult where
  outcome : Except (Option PostExc) (List (String × JVal))
  requests : Nat
  sleeps : List ℚ

/-- The `for attempt in range(self.max_post_retries)` loop: `left` attempts
remain, `idx` is the current 0-based attempt index, `lastExc` the recorded
last exception.  A successful attempt returns at once; a failed attempt
records the exception, sleeps `1.5 * (attempt + 1)` seconds and continues. -/
def postRun (outcome : Nat → PostOutcome) :
    Nat → Nat → Option PostExc → PostResult
  | 0, _, lastExc => ⟨.error lastExc, 0, []⟩
  | left + 1, idx, lastExc =>
      match outcome idx with
      | .resp s body =>
          if raisesForStatus s then
            let r := postRun outcome left (idx + 1) (some (.httpError s))
            ⟨r.outcome, r.requests + 1, (3 / 2 * (idx + 1) : ℚ) :: r.sleeps⟩
          else ⟨.ok body, 1, []⟩
      | .readTimeout =>
          let r := postRun outcome left (idx + 1) (some .readTimeout)
          ⟨r.outcome, r.requests + 1, (3 / 2 * (idx + 1) : ℚ) :: r.sleeps⟩
      | .connectionError =>
          let r := postRun outcome left (idx + 1) (some .connectionError)
          ⟨r.outcome, r.requests + 1, (3 / 2 * (idx + 1) : ℚ) :: r.sleeps⟩

/-- `FluxAdapter._post_with_retries`, with attempt outcomes given by the
oracle `outcome`. -/
def postWithRetries (outcome : Nat → PostOutcome) (maxRetries : Nat) :
    PostResult :=
  postRun outcome maxRetries 0 none

/-! ### Result polling (`FluxAdapter._poll_for_result`) -/

/-- Outcome of one poll iteration's `GET` (after the 0.5 s sleep):
`fail` is any swallowed `requests` exception (per-request timeout, network
error, or an error status raised by `raise_for_status`), `success` is a
parsed JSON object body. -/
inductive PollOutcome where
  | fail
  | success (result : List (String × JVal))

/-- Errors raised out of the adapter, named by the spec's taxonomy. -/
inductive AdapterError where
  | transient (e : PostExc)
  | assertionError
  | protocol
  | generationFailed (raw : List (String × JVal))
  | pollTimeout (requestId : JVal) (maxWait : ℚ)
  | missingSample (raw : List (String × JVal))
  | imageFetch (cause : String)

/-- `FluxAdapter._poll_for_result` over a trace of loop-head observations
`(elapsed, outcome)`: `elapsed` is `time.time() - start` at the `while` test,
`outcome` what that iteration's GET produced.  When the trace is exhausted,
time has passed `max_wait` (see the module conventions) and the loop raises
`TimeoutError` — note the raised error carries `max_wait` itself, the
interpolated value in `f"... timed out after {max_wait}s"`. -/
def pollForResult (request_id : JVal) (max_wait : ℚ) :
    List (ℚ × PollOutcome) → Except AdapterError (List (String × JVal))
  | [] => .error (.pollTimeout request_id max_wait)
  | (elapsed, o) :: rest =>
      if elapsed < max_wait then
        match o with
        | .fail => pollForResult request_id max_wait rest
        | .success result =>
            if isStatusStr result "Ready" then .ok result
            else if isStatusStr result "Error" || isStatusStr result "Failed" then
              .error (.generationFailed result)
            else pollForResult request_id max_wait rest
      else .error (.pollTimeout request_id max_wait)

/-! ### Edit-path source download (`FluxAdapter._edit_image_sync`, try block) -/

/-- An HTTP response to the edit path's `self._session.get(image_url, ...)`:
status code, raw bytes, and the `content-type` header if present. -/
structure HttpBytes where
  status : Nat
  content : List Nat
  contentType : Option String

/-- Outcome of the edit path's GET: a raised `requests` exception (carrying
its message) or a response. -/
inductive FetchOutcome where
  | exc (msg : String)
  | resp (r : HttpBytes)

/-- The try block of `_edit_image_sync`: pass a `data:` URL through, otherwise
download, check the status, and re-encode the bytes as a data URL using the
declared content type (default `image/jpeg`).  Any exception in the block is
wrapped as `ValueError(f"Failed to process input image: {str(e)}")` — the
spec's `ImageFetchError`; the error value here is the wrapped cause. -/
def normalizeEditInput (fetch : FetchOutcome) (image_url : String) :
    Except String String :=
  if strStartsWith image_url "data:" then .ok image_url
  else
    match fetch with
    | .exc msg => .error msg
    | .resp r =>
        if raisesForStatus r.status then .error ("HTTP error " ++ toString r.status)
        else
          .ok ("data:" ++ r.contentType.getD "image/jpeg" ++ ";base64," ++
            base64Encode r.content)

/-! ### Request payload construction -/

/-- The `aspect_ratio`/`width`/`height` tail of the generation payload:
`if self.aspect_ratio: ... else: width, height`. -/
def aspectOrDims (cfg : AdapterConfig) : List (String × JVal) :=
  match cfg.aspect_ratio with
  | some ar =>
      if ar ≠ "" then [("aspect_ratio", .str ar)]
      else [("width", .num cfg.width), ("height", .num cfg.height)]
  | none => [("width", .num cfg.width), ("height", .num cfg.height)]

/-- The generation payload built by `_generate_sync` (lines 61–79), in dict
insertion order. -/
def buildGeneratePayload (cfg : AdapterConfig) (fs : String → Option (List Nat))
    (prompt_text : String) (input_image : Option String)
    (guidance_scale : Option ℚ) : List (String × JVal) :=
  [("prompt", .str prompt_text),
   ("safety_tolerance", .num cfg.safety_tolerance),
   ("prompt_upsampling", .bool cfg.prompt_upsampling),
   ("raw", .bool cfg.use_raw_mode)]
  ++ (match guidance_scale with
      | some g => [("guidance_scale", .num g)]
      | none => [])
  ++ (match input_image with
      | some img =>
          if img ≠ "" then [("input_image", .str (toDataUrlIfNeeded fs img))]
          else []
      | none => [])
  ++ aspectOrDims cfg

/-- The `aspect_ratio` part of the edit payload:
`if aspect_ratio: ... elif self.aspect_ratio: ...`. -/
def editAspectField (percall cfgd : Option String) : List (String × JVal) :=
  match percall with
  | some ar =>
      if ar ≠ "" then [("aspect_ratio", .str ar)]
      else
        match cfgd with
        | some ar2 => if ar2 ≠ "" then [("aspect_ratio", .str ar2)] else []
        | none => []
  | none =>
      match cfgd with
      | some ar2 => if ar2 ≠ "" then [("aspect_ratio", .str ar2)] else []
      | none => []

/-- The edit payload built by `_edit_image_sync` (lines 121–135), in dict
insertion order; `input_image_b64` is the normalized source image. -/
def buildEditPayload (cfg : AdapterConfig) (prompt_text : String)
    (input_image_b64 : String) (aspect_ratio : Option String)
    (seed : Option Int) (output_format : String) : List (String × JVal) :=
  [("prompt", .str prompt_text),
   ("input_image", .str input_image_b64),
   ("safety_tolerance", .num cfg.safety_tolerance),
   ("prompt_upsampling", .bool cfg.prompt_upsampling),
   ("output_format", .str output_format)]
  ++ editAspectField aspect_ratio cfg.aspect_ratio
  ++ (match seed with
      | some n => [("seed", .num n)]
      | none => [])

/-! ### Result unwrapping (`sample = result.get("result", {}).get("sample")`) -/

/-- `if not sample: raise RuntimeError(f"Missing sample in result: {result}")`:
a Ready result's sample, or `MissingSampleError` carrying the raw result when
the sample is absent or falsy. -/
def extractSample (result : List (String × JVal)) : Except AdapterError JVal :=
  match jlookup (getResultObj result) "sample" with
  | none => .error (.missingSample result)
  | some v => if v.falsy then .error (.missingSample result) else .ok v

/-! ### The full synchronous operations -/

/-- The mocked world a generation call runs in: the local filesystem, the
outcome of each POST attempt, and the poll-loop observation trace. -/
structure GenWorld where
  fs : String → Option (List Nat)
  postOutcome : Nat → PostOutcome
  pollTrace : List (ℚ × PollOutcome)

/-- What a `_generate_sync` / `_edit_image_sync` run produced: the returned
`(sample, meta)` pair or the raised error, the JSON payload submitted (when
submission was reached), the endpoint POSTed to, and how many POST requests
and which backoff sleeps `_post_with_retries` performed. -/
structure RunOutput where
  result : Except AdapterError (JVal × List (String × JVal))
  payload : Option (List (String × JVal))
  endpoint : Option String
  postRequests : Nat
  postSleeps : List ℚ

/-- Lift a `_post_with_retries` outcome into the adapter's error taxonomy:
the re-raised `last_exc` is the spec's `TransientNetworkError`. -/
def liftPostOutcome (o : Except (Option PostExc) (List (String × JVal))) :
    Except AdapterError (List (String × JVal)) :=
  match o with
  | .ok body => .ok body
  | .error (some e) => .error (.transient e)
  | .error none => .error .assertionError

/-- The submit → poll → unwrap chain common to `_generate_sync` and
`_edit_image_sync`: POST with retries, read `data["id"]` (`KeyError` is the
spec's `ProtocolError`), poll to a terminal result, extract the sample.
Returns `(request_id, sample, result)` on success. -/
def runJob (maxRetries : Nat) (postOutcome : Nat → PostOutcome) (pt : ℚ)
    (trace : List (ℚ × PollOutcome)) :
    Except AdapterError (JVal × JVal × List (String × JVal)) :=
  match liftPostOutcome (postWithRetries postOutcome maxRetries).outcome with
  | .error e => .error e
  | .ok data =>
      match jlookup data "id" with
      | none => .error AdapterError.protocol
      | some request_id =>
          match pollForResult request_id pt trace with
          | .error e => .error e
          | .ok result =>
              match extractSample result with
              | .error e => .error e
              | .ok sample => .ok (request_id, sample, result)

/-- `FluxAdapter._generate_sync`: build the payload, run the job, assemble
the `(sample, meta)` pair. -/
def generateSync (cfg : AdapterConfig) (w : GenWorld) (prompt_text : String)
    (input_image : Option String) (guidance_scale : Option ℚ) : RunOutput :=
  let payload := buildGeneratePayload cfg w.fs prompt_text input_image guidance_scale
  let post := postWithRetries w.postOutcome cfg.max_post_retries
  let res : Except AdapterError (JVal × List (String × JVal)) :=
    match runJob cfg.max_post_retries w.postOutcome cfg.poll_timeout
        w.pollTrace with
    | .error e => .error e
    | .ok (request_id, sample, result) =>
        .ok (sample,
          [("request_id", request_id),
           ("model", .str cfg.model),
           ("result", .obj (getResultObj result))])
  ⟨res, some payload, some (generateEndpoint cfg), post.requests, post.sleeps⟩

/-- The mocked world an edit call runs in: additionally the outcome of the
source-image GET. -/
structure EditWorld where
  fetch : FetchOutcome
  postOutcome : Nat → PostOutcome
  pollTrace : List (ℚ × PollOutcome)

/-- `FluxAdapter._edit_image_sync` (download/normalize → submit → poll →
unwrap).  When normalization fails, no payload is built and no POST happens. -/
def editImageSync (cfg : AdapterConfig) (w : EditWorld) (prompt_text : String)
    (image_url : String) (aspect_ratio : Option String) (seed : Option Int)
    (output_format : String) : RunOutput :=
  match normalizeEditInput w.fetch image_url with
  | .error cause => ⟨.error (.imageFetch cause), none, none, 0, []⟩
  | .ok input_image_b64 =>
      let payload := buildEditPayload cfg prompt_text input_image_b64
        aspect_ratio seed output_format
      let post := postWithRetries w.postOutcome cfg.max_post_retries
      let res : Except AdapterError (JVal × List (String × JVal)) :=
        match runJob cfg.max_post_retries w.postOutcome cfg.poll_timeout
            w.pollTrace with
        | .error e => .error e
        | .ok (request_id, sample, result) =>
            .ok (sample,
              [("request_id", request_id),
               ("model", .str "flux-kontext-pro"),
               ("operation", .str "image_edit"),
               ("original_image", .str image_url),
               ("result", .obj (getResultObj result))])
      ⟨res, some payload, some (editEndpoint cfg), post.requests, post.sleeps⟩

/-! ### Tool layer (`src/main.py`) -/

/-- An abbreviation of Python's `str(e)` for each adapter error (no claim
inspects message text; the tool layer only forwards it). -/
def AdapterError.message : AdapterError → String
  | .transient .readTimeout => "read timed out"
  | .transient .connectionError => "connection error"
  | .transient (.httpError s) => "HTTP error " ++ toString s
  | .assertionError => "assertion failed"
  | .protocol => "KeyError: id"
  | .generationFailed _ => "Generation failed"
  | .pollTimeout _ mw => "timed out after " ++ toString mw ++ "s"
  | .missingSample _ => "Missing sample in result"
  | .imageFetch cause => "Failed to process input image: " ++ cause

/-- The adapter configuration `flux_generate` constructs (main.py lines
64–85): model `flux-kontext-max`, raw off, aspect ratio `"16:9"`,
1024×1024, safety tolerance 6, no prompt upsampling, remaining fields the
constructor defaults. -/
def fluxGenerateConfig : AdapterConfig :=
  { model := "flux-kontext-max"
    use_raw_mode := false
    aspect_ratio := some "16:9"
    width := 1024
    height := 1024
    safety_tolerance := 6
    prompt_upsampling := false }

/-- The adapter configuration `flux_edit_image` constructs (main.py lines
115–122): note it passes the per-call `aspect_ratio` as the adapter's
configured aspect ratio. -/
def fluxEditConfig (aspect_ratio : Option String) : AdapterConfig :=
  { model := "flux-kontext-max"
    use_raw_mode := false
    aspect_ratio := aspect_ratio
    safety_tolerance := 6
    prompt_upsampling := false }

/-- A tool call's visible effect: the returned dictionary and the number of
job-submission POST requests issued on its behalf. -/
structure ToolOutput where
  response : List (String × JVal)
  postRequests : Nat

/-- The `flux_generate` tool (main.py lines 53–89): environment key check,
adapter construction and `generate(prompt)`, with every raised exception
converted to `{"status": "error", "message": str(e)}`.  `env_key` models
`os.getenv("BFL_API_KEY")`. -/
def flux_generate (env_key : Option String) (prompt : String) (w : GenWorld) :
    ToolOutput :=
  if !strTruthy env_key then
    ⟨[("status", .str "error"), ("message", .str "BFL_API_KEY not set")], 0⟩
  else
    let out := generateSync fluxGenerateConfig w prompt none none
    match out.result with
    | .ok (image_url, meta) =>
        ⟨[("status", .str "success"), ("image", image_url),
          ("meta", .obj meta)], out.postRequests⟩
    | .error e =>
        ⟨[("status", .str "error"), ("message", .str e.message)],
          out.postRequests⟩

/-- The `flux_edit_image` tool (main.py lines 92–139): environment key check,
then the `image_url` validation (`if not image_url`), then adapter
construction and `edit_image(...)`, with every raised exception converted to
`{"status": "error", "message": str(e)}`. -/
def flux_edit_image (env_key : Option String) (prompt image_url : String)
    (aspect_ratio : Option String) (seed : Option Int) (output_format : String)
    (w : EditWorld) : ToolOutput :=
  if !strTruthy env_key then
    ⟨[("status", .str "error"), ("message", .str "BFL_API_KEY not set")], 0⟩
  else if image_url = "" then
    ⟨[("status", .str "error"), ("message", .str "image_url is required")], 0⟩
  else
    let out := editImageSync (fluxEditConfig aspect_ratio) w prompt image_url
      aspect_ratio seed output_format
    match out.result with
    | .ok (edited_image_url, meta) =>
        ⟨[("status", .str "success"), ("edited_image", edited_image_url),
          ("original_image", .str image_url), ("meta", .obj meta)],
          out.postRequests⟩
    | .error e =>
        ⟨[("status", .str "error"), ("message", .str e.message)],
          out.postRequests⟩

/-! ### Helper lemmas -/

theorem jlookup_append (xs ys : List (String × JVal)) (k : String) :
    jlookup (xs ++ ys) k = (jlookup xs k).or (jlookup ys k) := by
  unfold jlookup
  rw [List.find?_append]
  cases xs.find? (fun p => p.1 = k) <;> simp

/-! ### Claims -/

/-- C3: generation-path image normalization returns `ref` unchanged when it
begins with `data:`, `http://`, or `https://`, and unchanged when it names a
local path that is not an existing file; for an existing file it returns
`data:<mime>;base64,<payload>` over the file's bytes, where the mime is
`image/png` for extension `.png` (or an empty extension) and `image/<ext>`
otherwise. -/
theorem C3_image_normalization (fs : String → Option (List Nat)) (ref : String) :
    ((strStartsWith ref "data:" || strStartsWith ref "http://" ||
        strStartsWith ref "https://") = true → toDataUrlIfNeeded fs ref = ref) ∧
    (fs ref = none → toDataUrlIfNeeded fs ref = ref) ∧
    (∀ bytes, fs ref = some bytes →
      (strStartsWith ref "data:" || strStartsWith ref "http://" ||
        strStartsWith ref "https://") = false →
      toDataUrlIfNeeded fs ref =
        "data:" ++
          (if pyExt ref = "" || pyExt ref = "png" then "image/png"
           else "image/" ++ pyExt ref) ++
          ";base64," ++ base64Encode bytes) := by
  refine ⟨fun h => ?_, fun h => ?_, fun bytes hb hp => ?_⟩
  · simp [toDataUrlIfNeeded, h]
  · unfold toDataUrlIfNeeded
    split
    · rfl
    · rw [h]
  · simp only [toDataUrlIfNeeded, hp, Bool.false_eq_true, if_false, hb]
    by_cases he : pyExt ref = ""
    · simp [he]
    · by_cases hp2 : pyExt ref = "png"
      · simp [he, hp2]
      · simp [he, hp2]

/-- The example filesystem of spec §8: `photo.png` is an existing 10-byte
file; nothing else exists. -/
def sampleFs : String → Option (List Nat) :=
  fun p => if p = "photo.png" then some [1, 2, 3, 4, 5, 6, 7, 8, 9, 10] else none

/-- Witness for C3 at the spec's own examples. -/
theorem C3_image_normalization_witness :
    toDataUrlIfNeeded sampleFs "https://x/y.jpg" = "https://x/y.jpg" ∧
    toDataUrlIfNeeded sampleFs "missing.png" = "missing.png" ∧
    toDataUrlIfNeeded sampleFs "photo.png" =
      "data:" ++
        (if pyExt "photo.png" = "" || pyExt "photo.png" = "png" then "image/png"
         else "image/" ++ pyExt "photo.png") ++
        ";base64," ++ base64Encode [1, 2, 3, 4, 5, 6, 7, 8, 9, 10] :=
  ⟨(C3_image_normalization sampleFs "https://x/y.jpg").1 (by decide),
   (C3_image_normalization sampleFs "missing.png").2.1 (by rfl),
   (C3_image_normalization sampleFs "photo.png").2.2
     [1, 2, 3, 4, 5, 6, 7, 8, 9, 10] (by rfl) (by decide)⟩

theorem jlookup_ite (c : Prop) [Decidable c] (xs ys : List (String × JVal))
    (k : String) :
    jlookup (if c then xs else ys) k =
      if c then jlookup xs k else jlookup ys k := by
  split <;> rfl

theorem jlookup_aspectOrDims_other (cfg : AdapterConfig) (k : String)
    (h1 : k ≠ "aspect_ratio") (h2 : k ≠ "width") (h3 : k ≠ "height") :
    jlookup (aspectOrDims cfg) k = none := by
  unfold aspectOrDims
  rcases h : cfg.aspect_ratio with _ | ar
  · simp [jlookup, List.find?, Ne.symm h2, Ne.symm h3]
  · by_cases he : ar = ""
    · simp [he, jlookup, List.find?, Ne.symm h2, Ne.symm h3]
    · simp [he, jlookup, List.find?, Ne.symm h1]

theorem jlookup_editAspectField_other (percall cfgd : Option String) (k : String)
    (h : k ≠ "aspect_ratio") :
    jlookup (editAspectField percall cfgd) k = none := by
  have hone : ∀ ar : String,
      jlookup [("aspect_ratio", JVal.str ar)] k = none := by
    intro ar
    simp [jlookup, List.find?, Ne.symm h]
  have hcfgd : jlookup (match cfgd with
      | some ar2 => if ar2 ≠ "" then [("aspect_ratio", JVal.str ar2)] else []
      | none => []) k = none := by
    rcases cfgd with _ | ar2
    · rfl
    · by_cases he : ar2 = ""
      · simp [he]
        rfl
      · simp [he, hone]
  unfold editAspectField
  rcases percall with _ | ar
  · exact hcfgd
  · by_cases he : ar = ""
    · simpa [he] using hcfgd
    · simp [he, hone]

/-- C6: the generation payload emitted by `generateSync` carries
`aspect_ratio` and `width`/`height` mutually exclusively: with a configured
(truthy) aspect ratio it contains `aspect_ratio` and neither dimension;
without one it contains both dimensions and no `aspect_ratio`. -/
theorem C6_aspect_vs_dimensions (cfg : AdapterConfig)
    (fs : String → Option (List Nat)) (prompt : String)
    (input_image : Option String) (guidance_scale : Option ℚ) :
    (∀ w : GenWorld, (generateSync cfg w prompt input_image guidance_scale).payload =
      some (buildGeneratePayload cfg w.fs prompt input_image guidance_scale)) ∧
    (∀ ar, cfg.aspect_ratio = some ar → ar ≠ "" →
      jlookup (buildGeneratePayload cfg fs prompt input_image guidance_scale)
          "aspect_ratio" = some (.str ar) ∧
      jlookup (buildGeneratePayload cfg fs prompt input_image guidance_scale)
          "width" = none ∧
      jlookup (buildGeneratePayload cfg fs prompt input_image guidance_scale)
          "height" = none) ∧
    (strTruthy cfg.aspect_ratio = false →
      jlookup (buildGeneratePayload cfg fs prompt input_image guidance_scale)
          "width" = some (.num cfg.width) ∧
      jlookup (buildGeneratePayload cfg fs prompt input_image guidance_scale)
          "height" = some (.num cfg.height) ∧
      jlookup (buildGeneratePayload cfg fs prompt input_image guidance_scale)
          "aspect_ratio" = none) := by
  refine ⟨fun w => rfl, fun ar har hne => ?_, fun hfalse => ?_⟩
  · have hA : aspectOrDims cfg = [("aspect_ratio", .str ar)] := by
      simp [aspectOrDims, har, hne]
    unfold buildGeneratePayload
    rw [hA]
    rcases guidance_scale with _ | g <;> rcases input_image with _ | img <;>
      simp [jlookup_append, jlookup_ite, jlookup, List.find?]
  · have hA : aspectOrDims cfg =
        [("width", .num cfg.width), ("height", .num cfg.height)] := by
      unfold aspectOrDims
      rcases h : cfg.aspect_ratio with _ | ar
      · rfl
      · rw [h] at hfalse
        simp [strTruthy] at hfalse
        simp [hfalse]
    unfold buildGeneratePayload
    rw [hA]
    rcases guidance_scale with _ | g <;> rcases input_image with _ | img <;>
      simp [jlookup_append, jlookup_ite, jlookup, List.find?]

/-- Witness for C6 at concrete configurations. -/
theorem C6_aspect_vs_dimensions_witness :
    (jlookup (buildGeneratePayload { model := "m", use_raw_mode := false }
        (fun _ => none) "p" none none) "aspect_ratio" = some (.str "16:9") ∧
     jlookup (buildGeneratePayload { model := "m", use_raw_mode := false }
        (fun _ => none) "p" none none) "width" = none ∧
     jlookup (buildGeneratePayload { model := "m", use_raw_mode := false }
        (fun _ => none) "p" none none) "height" = none) ∧
    (jlookup (buildGeneratePayload
        { model := "m", use_raw_mode := false, aspect_ratio := none }
        (fun _ => none) "p" none none) "width" = some (.num 1024) ∧
     jlookup (buildGeneratePayload
        { model := "m", use_raw_mode := false, aspect_ratio := none }
        (fun _ => none) "p" none none) "height" = some (.num 1024) ∧
     jlookup (buildGeneratePayload
        { model := "m", use_raw_mode := false, aspect_ratio := none }
        (fun _ => none) "p" none none) "aspect_ratio" = none) :=
  ⟨(C6_aspect_vs_dimensions { model := "m", use_raw_mode := false }
      (fun _ => none) "p" none none).2.1 "16:9" rfl (by decide),
   (C6_aspect_vs_dimensions
      { model := "m", use_raw_mode := false, aspect_ratio := none }
      (fun _ => none) "p" none none).2.2 rfl⟩

/-- C7: the generation payload emitted by `generateSync` contains
`guidance_scale` exactly when the caller supplied one (absent otherwise),
while `prompt`, `safety_tolerance`, `prompt_upsampling` and `raw` are always
present. -/
theorem C7_guidance_scale_presence (cfg : AdapterConfig)
    (fs : String → Option (List Nat)) (prompt : String)
    (input_image : Option String) (guidance_scale : Option ℚ) :
    (∀ w : GenWorld, (generateSync cfg w prompt input_image guidance_scale).payload =
      some (buildGeneratePayload cfg w.fs prompt input_image guidance_scale)) ∧
    jlookup (buildGeneratePayload cfg fs prompt input_image guidance_scale)
        "guidance_scale" = guidance_scale.map (fun g => JVal.num g) ∧
    jlookup (buildGeneratePayload cfg fs prompt input_image guidance_scale)
        "prompt" = some (.str prompt) ∧
    jlookup (buildGeneratePayload cfg fs prompt input_image guidance_scale)
        "safety_tolerance" = some (.num cfg.safety_tolerance) ∧
    jlookup (buildGeneratePayload cfg fs prompt input_image guidance_scale)
        "prompt_upsampling" = some (.bool cfg.prompt_upsampling) ∧
    jlookup (buildGeneratePayload cfg fs prompt input_image guidance_scale)
        "raw" = some (.bool cfg.use_raw_mode) := by
  refine ⟨fun w => rfl, ?_, ?_, ?_, ?_, ?_⟩
  · unfold buildGeneratePayload
    rw [jlookup_append, jlookup_append, jlookup_append,
      jlookup_aspectOrDims_other cfg "guidance_scale" (by decide) (by decide)
        (by decide)]
    rcases guidance_scale with _ | g <;> rcases input_image with _ | img <;>
      simp [jlookup_ite, jlookup, List.find?]
  · unfold buildGeneratePayload
    rw [jlookup_append, jlookup_append, jlookup_append,
      jlookup_aspectOrDims_other cfg "prompt" (by decide) (by decide) (by decide)]
    rcases guidance_scale with _ | g <;> rcases input_image with _ | img <;>
      simp [jlookup_ite, jlookup, List.find?]
  · unfold buildGeneratePayload
    rw [jlookup_append, jlookup_append, jlookup_append,
      jlookup_aspectOrDims_other cfg "safety_tolerance" (by decide) (by decide)
        (by decide)]
    rcases guidance_scale with _ | g <;> rcases input_image with _ | img <;>
      simp [jlookup_ite, jlookup, List.find?]
  · unfold buildGeneratePayload
    rw [jlookup_append, jlookup_append, jlookup_append,
      jlookup_aspectOrDims_other cfg "prompt_upsampling" (by decide) (by decide)
        (by decide)]
    rcases guidance_scale with _ | g <;> rcases input_image with _ | img <;>
      simp [jlookup_ite, jlookup, List.find?]
  · unfold buildGeneratePayload
    rw [jlookup_append, jlookup_append, jlookup_append,
      jlookup_aspectOrDims_other cfg "raw" (by decide) (by decide) (by decide)]
    rcases guidance_scale with _ | g <;> rcases input_image with _ | img <;>
      simp [jlookup_ite, jlookup, List.find?]

/-- C10: the edit payload's `aspect_ratio` is the per-call value when one is
supplied (truthy), else the adapter's configured value when that is truthy,
and absent when both are unset; `seed` is present exactly when supplied. -/
theorem C10_edit_aspect_and_seed (cfg : AdapterConfig) (prompt b64 : String)
    (aspect_ratio : Option String) (seed : Option Int) (output_format : String) :
    (∀ (w : EditWorld) (image_url : String),
      normalizeEditInput w.fetch image_url = .ok b64 →
      (editImageSync cfg w prompt image_url aspect_ratio seed
          output_format).payload =
        some (buildEditPayload cfg prompt b64 aspect_ratio seed output_format)) ∧
    (∀ ar, aspect_ratio = some ar → ar ≠ "" →
      jlookup (buildEditPayload cfg prompt b64 aspect_ratio seed output_format)
        "aspect_ratio" = some (.str ar)) ∧
    (strTruthy aspect_ratio = false → ∀ ar2, cfg.aspect_ratio = some ar2 →
      ar2 ≠ "" →
      jlookup (buildEditPayload cfg prompt b64 aspect_ratio seed output_format)
        "aspect_ratio" = some (.str ar2)) ∧
    (strTruthy aspect_ratio = false → strTruthy cfg.aspect_ratio = false →
      jlookup (buildEditPayload cfg prompt b64 aspect_ratio seed output_format)
        "aspect_ratio" = none) ∧
    jlookup (buildEditPayload cfg prompt b64 aspect_ratio seed output_format)
        "seed" = seed.map (fun n => JVal.num (n : ℚ)) := by
  refine ⟨?_, ?_, ?_, ?_, ?_⟩
  · intro w image_url hnorm
    unfold editImageSync
    rw [hnorm]
  · intro ar har hne
    unfold buildEditPayload
    subst har
    rcases seed with _ | n <;>
      simp [jlookup_append, jlookup, List.find?, editAspectField, hne]
  · intro hfalse ar2 har2 hne2
    have hA : editAspectField aspect_ratio cfg.aspect_ratio =
        [("aspect_ratio", .str ar2)] := by
      unfold editAspectField
      rcases aspect_ratio with _ | ar
      · rw [har2]
        simp [hne2]
      · simp [strTruthy] at hfalse
        rw [har2]
        simp [hfalse, hne2]
    unfold buildEditPayload
    rw [hA]
    rcases seed with _ | n <;>
      simp [jlookup_append, jlookup, List.find?]
  · intro hfalse1 hfalse2
    have hA : editAspectField aspect_ratio cfg.aspect_ratio = [] := by
      unfold editAspectField
      rcases aspect_ratio with _ | ar <;> rcases h2 : cfg.aspect_ratio with _ | ar2
      · rfl
      · rw [h2] at hfalse2
        simp [strTruthy] at hfalse2
        simp [hfalse2]
      · simp [strTruthy] at hfalse1
        simp [hfalse1]
      · simp [strTruthy] at hfalse1
        rw [h2] at hfalse2
        simp [strTruthy] at hfalse2
        simp [hfalse1, hfalse2]
    unfold buildEditPayload
    rw [hA]
    rcases seed with _ | n <;> simp [jlookup_append, jlookup, List.find?]
  · unfold buildEditPayload
    rw [jlookup_append, jlookup_append,
      jlookup_editAspectField_other aspect_ratio cfg.aspect_ratio "seed"
        (by decide)]
    rcases seed with _ | n <;> simp [jlookup, List.find?]

/-- A concrete edit configuration with configured aspect ratio `4:3`. -/
def cfgWithAspect : AdapterConfig :=
  { model := "m", use_raw_mode := false, aspect_ratio := some "4:3" }

/-- A concrete edit configuration with no configured aspect ratio. -/
def cfgNoAspect : AdapterConfig :=
  { model := "m", use_raw_mode := false, aspect_ratio := none }

/-- A concrete edit world whose GET would fail (irrelevant for a `data:`
source, which passes through without fetching). -/
def editWorldNoFetch : EditWorld :=
  ⟨.exc "unreachable", fun _ => .readTimeout, []⟩

/-- Witness for C10 at concrete inputs. -/
theorem C10_edit_aspect_and_seed_witness :
    (editImageSync cfgWithAspect editWorldNoFetch "p" "data:img" (some "16:9")
        (some 42) "jpeg").payload =
      some (buildEditPayload cfgWithAspect "p" "data:img" (some "16:9")
        (some 42) "jpeg") ∧
    jlookup (buildEditPayload cfgWithAspect "p" "data:img" (some "16:9")
        (some 42) "jpeg") "aspect_ratio" = some (.str "16:9") ∧
    jlookup (buildEditPayload cfgWithAspect "p" "x" none (some 42) "jpeg")
        "aspect_ratio" = some (.str "4:3") ∧
    jlookup (buildEditPayload cfgNoAspect "p" "x" none none "jpeg")
        "aspect_ratio" = none ∧
    jlookup (buildEditPayload cfgWithAspect "p" "x" (some "16:9") (some 42)
        "jpeg") "seed" = (some (42 : Int)).map (fun n => JVal.num (n : ℚ)) :=
  ⟨(C10_edit_aspect_and_seed cfgWithAspect "p" "data:img" (some "16:9")
      (some 42) "jpeg").1 editWorldNoFetch "data:img" (by rfl),
   (C10_edit_aspect_and_seed cfgWithAspect "p" "data:img" (some "16:9")
      (some 42) "jpeg").2.1 "16:9" rfl (by decide),
   (C10_edit_aspect_and_seed cfgWithAspect "p" "x" none (some 42)
      "jpeg").2.2.1 (by decide) "4:3" rfl (by decide),
   (C10_edit_aspect_and_seed cfgNoAspect "p" "x" none none
      "jpeg").2.2.2.1 (by decide) (by decide),
   (C10_edit_aspect_and_seed cfgWithAspect "p" "x" (some "16:9") (some 42)
      "jpeg").2.2.2.2⟩

theorem postRun_fail_step (outcome : Nat → PostOutcome) (left idx : Nat)
    (lastExc : Option PostExc) (e : PostExc)
    (hx : (outcome idx).failure = some e) :
    postRun outcome (left + 1) idx lastExc =
      ⟨(postRun outcome left (idx + 1) (some e)).outcome,
       (postRun outcome left (idx + 1) (some e)).requests + 1,
       ((3 : ℚ) / 2 * ((idx + 1 : Nat) : ℚ)) ::
         (postRun outcome left (idx + 1) (some e)).sleeps⟩ := by
  rcases hout : outcome idx with _ | _ | ⟨s, body⟩ <;> rw [hout] at hx <;>
    simp [PostOutcome.failure] at hx
  · subst hx
    simp [postRun, hout]
  · subst hx
    simp [postRun, hout]
  · obtain ⟨hs, he⟩ := hx
    subst he
    simp [postRun, hout, hs]

theorem range_succ_sleeps (idx n : Nat) :
    ((3 : ℚ) / 2 * ((idx + 1 : Nat) : ℚ)) ::
      (List.range n).map (fun j => (3 : ℚ) / 2 * ((idx + 1 + j + 1 : Nat) : ℚ)) =
    (List.range (n + 1)).map (fun j => (3 : ℚ) / 2 * ((idx + j + 1 : Nat) : ℚ)) := by
  have h1 : ∀ a ∈ List.range n,
      ((fun j => (3 : ℚ) / 2 * ((idx + j + 1 : Nat) : ℚ)) ∘ Nat.succ) a =
        (fun j => (3 : ℚ) / 2 * ((idx + 1 + j + 1 : Nat) : ℚ)) a := by
    intro a _
    simp only [Function.comp]
    push_cast
    ring
  rw [List.range_succ_eq_map, List.map_cons, List.map_map,
    List.map_congr_left h1]

theorem postRun_all_fail (outcome : Nat → PostOutcome) :
    ∀ (left idx : Nat) (lastExc : Option PostExc), 0 < left →
    (∀ j, j < left → ((outcome (idx + j)).failure).isSome = true) →
    ∃ e, (outcome (idx + left - 1)).failure = some e ∧
      postRun outcome left idx lastExc =
        ⟨.error (some e), left,
          (List.range left).map (fun j => (3 : ℚ) / 2 * ((idx + j + 1 : Nat) : ℚ))⟩ := by
  intro left
  induction left with
  | zero => intro idx lastExc h0 _; exact absurd h0 (by omega)
  | succ n ih =>
      intro idx lastExc _ hf
      have h0 : ((outcome idx).failure).isSome = true := by
        have := hf 0 (by omega)
        simpa using this
      obtain ⟨e0, he0⟩ := Option.isSome_iff_exists.mp h0
      cases n with
      | zero =>
          refine ⟨e0, by simpa using he0, ?_⟩
          rw [postRun_fail_step outcome 0 idx lastExc e0 he0]
          have hr1 : List.range 1 = [0] := rfl
          simp [postRun, hr1]
      | succ m =>
          have hf' : ∀ j, j < m + 1 →
              ((outcome (idx + 1 + j)).failure).isSome = true := by
            intro j hj
            have h2 : idx + 1 + j = idx + (j + 1) := by omega
            rw [h2]
            exact hf (j + 1) (by omega)
          obtain ⟨e, he, hrun⟩ := ih (idx + 1) (some e0) (by omega) hf'
          have hidx : idx + 1 + (m + 1) - 1 = idx + (m + 1 + 1) - 1 := by omega
          refine ⟨e, by rw [← hidx]; exact he, ?_⟩
          rw [postRun_fail_step outcome (m + 1) idx lastExc e0 he0, hrun,
            ← range_succ_sleeps idx (m + 1)]

/-- Two read timeouts followed by a successful submission response. -/
def twoTimeoutsThen (body : List (String × JVal)) : Nat → PostOutcome :=
  fun i => if i < 2 then .readTimeout else .resp 200 body

/-- A generation world whose first two POST attempts time out, the third
succeeds, and whose first poll reports Ready with a sample. -/
def genWorldRetry : GenWorld :=
  ⟨fun _ => none, twoTimeoutsThen [("id", .str "r1")],
   [(0, .success [("status", .str "Ready"),
     ("result", .obj [("sample", .str "http://img")])])]⟩

/-- C2: a submission failure (read timeout / connection error / HTTP error
status) is retried up to the configured budget (3 by default in the tool's
configuration) with backoff `1.5s * attemptNumber`, after which the last
failure is surfaced; and with two read timeouts followed by a success,
`generate` succeeds having issued exactly three POST requests. -/
theorem C2_submission_retries :
    fluxGenerateConfig.max_post_retries = 3 ∧
    (∀ (outcome : Nat → PostOutcome) (maxR : Nat), 0 < maxR →
      (∀ i, i < maxR → ((outcome i).failure).isSome = true) →
      ∃ e, (outcome (maxR - 1)).failure = some e ∧
        postWithRetries outcome maxR =
          ⟨.error (some e), maxR,
            (List.range maxR).map
              (fun i => (3 : ℚ) / 2 * ((i + 1 : Nat) : ℚ))⟩) ∧
    (∀ body, postWithRetries (twoTimeoutsThen body) 3 =
      ⟨.ok body, 3, [3 / 2, 3]⟩) ∧
    (generateSync fluxGenerateConfig genWorldRetry "p" none none).result =
      .ok (.str "http://img",
        [("request_id", .str "r1"), ("model", .str "flux-kontext-max"),
         ("result", .obj [("sample", .str "http://img")])]) ∧
    (generateSync fluxGenerateConfig genWorldRetry "p" none none).postRequests
      = 3 := by
  refine ⟨rfl, ?_, ?_, ?_, ?_⟩
  · intro outcome maxR h0 hf
    have := postRun_all_fail outcome maxR 0 none h0 (by simpa using hf)
    simpa [postWithRetries] using this
  · intro body
    simp [postWithRetries, postRun, twoTimeoutsThen, raisesForStatus]
    norm_num
  · rfl
  · rfl

/-- Witness for C2's universally quantified retry-exhaustion part, at three
straight read timeouts. -/
theorem C2_submission_retries_witness :
    ∃ e, ((fun _ => PostOutcome.readTimeout) (3 - 1) : PostOutcome).failure
        = some e ∧
      postWithRetries (fun _ => PostOutcome.readTimeout) 3 =
        ⟨.error (some e), 3,
          (List.range 3).map (fun i => (3 : ℚ) / 2 * ((i + 1 : Nat) : ℚ))⟩ :=
  C2_submission_retries.2.1 (fun _ => PostOutcome.readTimeout) 3 (by decide)
    (fun i _ => rfl)

/-- A poll-loop observation on which the loop keeps going: still within the
wait budget, and the iteration ends in a swallowed request failure or a
non-terminal status. -/
def stepContinues (max_wait : ℚ) : ℚ × PollOutcome → Bool
  | (e, .fail) => decide (e < max_wait)
  | (e, .success r) =>
      decide (e < max_wait) && !isStatusStr r "Ready" &&
        !isStatusStr r "Error" && !isStatusStr r "Failed"

theorem pollForResult_skip (request_id : JVal) (max_wait : ℚ)
    (s : ℚ × PollOutcome) (rest : List (ℚ × PollOutcome))
    (h : stepContinues max_wait s = true) :
    pollForResult request_id max_wait (s :: rest) =
      pollForResult request_id max_wait rest := by
  rcases s with ⟨e, o⟩
  rcases o with _ | r
  · simp [stepContinues] at h
    simp [pollForResult, h]
  · simp [stepContinues] at h
    obtain ⟨⟨⟨h1, h2⟩, h3⟩, h4⟩ := h
    simp [pollForResult, h1, h2, h3, h4]

theorem pollForResult_skipAll (request_id : JVal) (max_wait : ℚ)
    (pre l : List (ℚ × PollOutcome))
    (h : ∀ s ∈ pre, stepContinues max_wait s = true) :
    pollForResult request_id max_wait (pre ++ l) =
      pollForResult request_id max_wait l := by
  induction pre with
  | nil => rfl
  | cons s pre ih =>
      rw [List.cons_append,
        pollForResult_skip request_id max_wait s (pre ++ l)
          (h s (by simp)),
        ih (fun t ht => h t (by simp [ht]))]

theorem isStatusStr_unique (r : List (String × JVal)) (a b : String)
    (h : isStatusStr r a = true) (hne : a ≠ b) : isStatusStr r b = false := by
  unfold isStatusStr at h ⊢
  cases hj : jlookup r "status" with
  | none => simp [hj] at h
  | some v =>
      rw [hj] at h
      cases v with
      | str t =>
          simp at h
          subst h
          simp [hne]
      | null => simp at h
      | bool c => simp at h
      | num q => simp at h
      | obj fields => simp at h

/-- C1 (amended): over any poll trace whose earlier observations are all
non-terminal and in-budget, `_poll_for_result` returns the full payload at
the first Ready poll; raises `GenerationFailedError` carrying the raw payload
at the first Error/Failed poll with no dependence on later observations; once
the elapsed time reaches or exceeds `max_wait` it raises `PollTimeoutError`
carrying the job ID and the configured `max_wait`; and a failed poll request
is swallowed, the loop continuing with the remaining trace. -/
theorem C1_poll_loop (request_id : JVal) (max_wait : ℚ)
    (pre rest : List (ℚ × PollOutcome)) (elapsed : ℚ)
    (hpre : ∀ s ∈ pre, stepContinues max_wait s = true) :
    (∀ r, elapsed < max_wait → isStatusStr r "Ready" = true →
      pollForResult request_id max_wait
        (pre ++ (elapsed, .success r) :: rest) = .ok r) ∧
    (∀ r, elapsed < max_wait →
      (isStatusStr r "Error" = true ∨ isStatusStr r "Failed" = true) →
      pollForResult request_id max_wait
        (pre ++ (elapsed, .success r) :: rest) =
        .error (.generationFailed r)) ∧
    (∀ o, max_wait ≤ elapsed →
      pollForResult request_id max_wait (pre ++ (elapsed, o) :: rest) =
        .error (.pollTimeout request_id max_wait)) ∧
    (∀ rest2 : List (ℚ × PollOutcome), elapsed < max_wait →
      pollForResult request_id max_wait ((elapsed, .fail) :: rest2) =
        pollForResult request_id max_wait rest2) := by
  refine ⟨fun r hlt hready => ?_, fun r hlt herr => ?_, fun o hge => ?_,
    fun rest2 hlt => ?_⟩
  · rw [pollForResult_skipAll request_id max_wait pre _ hpre]
    simp [pollForResult, hlt, hready]
  · rw [pollForResult_skipAll request_id max_wait pre _ hpre]
    have hnotready : isStatusStr r "Ready" = false := by
      rcases herr with h | h
      · exact isStatusStr_unique r "Error" "Ready" h (by decide)
      · exact isStatusStr_unique r "Failed" "Ready" h (by decide)
    rcases herr with h | h <;> simp [pollForResult, hlt, hnotready, h]
  · rw [pollForResult_skipAll request_id max_wait pre _ hpre]
    rcases o with _ | r <;> simp [pollForResult, not_lt.mpr hge]
  · exact pollForResult_skip request_id max_wait (elapsed, .fail) rest2
      (by simp [stepContinues, hlt])

/-- C1 counterexample to the claim as stated: the timeout error raised by
`_poll_for_result` interpolates `max_wait` into the `TimeoutError`, not the
measured elapsed time.  Here the loop observes `elapsed = 7` against
`max_wait = 5` (after one swallowed failure), and the raised error carries 5,
which differs from the elapsed 7 the claim promises. -/
theorem C1_poll_loop_counterexample :
    pollForResult (.str "job-1") 5 [(0, .fail), (7, .fail)] =
      .error (.pollTimeout (.str "job-1") 5) ∧ (5 : ℚ) ≠ 7 :=
  ⟨rfl, by norm_num⟩

/-- Non-terminal prefix used by the C1 witness: one swallowed failure, one
Pending poll. -/
def pendingPre : List (ℚ × PollOutcome) :=
  [(0, .fail), (1, .success [("status", .str "Pending")])]

/-- A Ready poll body with a sample. -/
def readyResult : List (String × JVal) :=
  [("status", .str "Ready"), ("result", .obj [("sample", .str "u")])]

/-- An Error poll body. -/
def errorResult : List (String × JVal) := [("status", .str "Error")]

/-- Witness for C1 at concrete traces. -/
theorem C1_poll_loop_witness :
    pollForResult (.str "j") 5
        (pendingPre ++ (2, .success readyResult) :: [(3, .fail)]) =
      .ok readyResult ∧
    pollForResult (.str "j") 5
        (pendingPre ++ (2, .success errorResult) :: [(3, .fail)]) =
      .error (.generationFailed errorResult) ∧
    pollForResult (.str "j") 5 (pendingPre ++ (7, .fail) :: [(8, .fail)]) =
      .error (.pollTimeout (.str "j") 5) ∧
    pollForResult (.str "j") 5 ((2, .fail) :: [(3, .success readyResult)]) =
      pollForResult (.str "j") 5 [(3, .success readyResult)] :=
  ⟨(C1_poll_loop (.str "j") 5 pendingPre [(3, .fail)] 2 (by decide)).1
      readyResult (by norm_num) (by decide),
   (C1_poll_loop (.str "j") 5 pendingPre [(3, .fail)] 2 (by decide)).2.1
      errorResult (by norm_num) (Or.inl (by decide)),
   (C1_poll_loop (.str "j") 5 pendingPre [(8, .fail)] 7 (by decide)).2.2.1
      .fail (by norm_num),
   (C1_poll_loop (.str "j") 5 pendingPre [] 2 (by decide)).2.2.2
      [(3, .success readyResult)] (by norm_num)⟩

theorem extractSample_ok (result : List (String × JVal)) (v : JVal)
    (h : extractSample result = .ok v) : v.falsy = false := by
  unfold extractSample at h
  rcases hj : jlookup (getResultObj result) "sample" with _ | u <;>
    simp only [hj] at h
  · simp at h
  · by_cases hf : u.falsy
    · rw [if_pos hf] at h
      simp at h
    · rw [if_neg hf] at h
      simp at h
      subst h
      simpa using hf

theorem runJob_ok (maxR : Nat) (po : Nat → PostOutcome) (pt : ℚ)
    (tr : List (ℚ × PollOutcome)) (rid sample : JVal)
    (result : List (String × JVal))
    (h : runJob maxR po pt tr = .ok (rid, sample, result)) :
    extractSample result = .ok sample ∧ sample.falsy = false := by
  unfold runJob at h
  rcases hl : liftPostOutcome (postWithRetries po maxR).outcome with e | data <;>
    simp only [hl] at h
  · simp at h
  · rcases hid : jlookup data "id" with _ | rid' <;> simp only [hid] at h
    · simp at h
    · rcases hpoll : pollForResult rid' pt tr with e | res <;>
        simp only [hpoll] at h
      · simp at h
      · rcases hes : extractSample res with e | s <;> simp only [hes] at h
        · simp at h
        · simp at h
          obtain ⟨h1, h2, h3⟩ := h
          subst h1
          subst h2
          subst h3
          exact ⟨hes, extractSample_ok res _ hes⟩

/-- C5: a Ready result whose payload lacks a truthy `sample` makes the run
fail with `MissingSampleError` carrying the raw result, in both operations;
and any successfully returned sample is non-falsy (never empty/defaulted). -/
theorem C5_missing_sample :
    (∀ result, jlookup (getResultObj result) "sample" = none →
      extractSample result = .error (.missingSample result)) ∧
    (∀ result v, jlookup (getResultObj result) "sample" = some v →
      v.falsy = true → extractSample result = .error (.missingSample result)) ∧
    (∀ (maxR : Nat) (po : Nat → PostOutcome) (pt : ℚ)
        (tr : List (ℚ × PollOutcome)) (data : List (String × JVal)) (rid : JVal)
        (r : List (String × JVal)),
      (postWithRetries po maxR).outcome = .ok data →
      jlookup data "id" = some rid →
      pollForResult rid pt tr = .ok r →
      extractSample r = .error (.missingSample r) →
      runJob maxR po pt tr = .error (.missingSample r)) ∧
    (∀ (cfg : AdapterConfig) (w : GenWorld) (prompt : String)
        (input_image : Option String) (guidance : Option ℚ)
        (err : AdapterError),
      runJob cfg.max_post_retries w.postOutcome cfg.poll_timeout w.pollTrace =
        .error err →
      (generateSync cfg w prompt input_image guidance).result = .error err) ∧
    (∀ (cfg : AdapterConfig) (w : EditWorld) (prompt image_url b64 : String)
        (ar : Option String) (seed : Option Int) (fmt : String)
        (err : AdapterError),
      normalizeEditInput w.fetch image_url = .ok b64 →
      runJob cfg.max_post_retries w.postOutcome cfg.poll_timeout w.pollTrace =
        .error err →
      (editImageSync cfg w prompt image_url ar seed fmt).result = .error err) ∧
    (∀ (cfg : AdapterConfig) (w : GenWorld) (prompt : String)
        (input_image : Option String) (guidance : Option ℚ) (sample : JVal)
        (meta : List (String × JVal)),
      (generateSync cfg w prompt input_image guidance).result =
        .ok (sample, meta) → sample.falsy = false) ∧
    (∀ (cfg : AdapterConfig) (w : EditWorld) (prompt image_url : String)
        (ar : Option String) (seed : Option Int) (fmt : String) (sample : JVal)
        (meta : List (String × JVal)),
      (editImageSync cfg w prompt image_url ar seed fmt).result =
        .ok (sample, meta) → sample.falsy = false) := by
  refine ⟨?_, ?_, ?_, ?_, ?_, ?_, ?_⟩
  · intro result hj
    unfold extractSample
    rw [hj]
  · intro result v hj hf
    unfold extractSample
    simp only [hj]
    rw [if_pos hf]
  · intro maxR po pt tr data rid r hpost hid hpoll hes
    unfold runJob
    rw [hpost]
    simp only [liftPostOutcome, hid, hpoll, hes]
  · intro cfg w prompt input_image guidance err herr
    unfold generateSync
    rw [herr]
  · intro cfg w prompt image_url b64 ar seed fmt err hn herr
    unfold editImageSync
    rw [hn, herr]
  · intro cfg w prompt input_image guidance sample meta hok
    rcases hr : runJob cfg.max_post_retries w.postOutcome cfg.poll_timeout
        w.pollTrace with e | ⟨rid, s, res⟩
    · have hres : (generateSync cfg w prompt input_image guidance).result =
          .error e := by
        unfold generateSync
        rw [hr]
      rw [hres] at hok
      simp at hok
    · have hres : (generateSync cfg w prompt input_image guidance).result =
          .ok (s, [("request_id", rid), ("model", .str cfg.model),
            ("result", .obj (getResultObj res))]) := by
        unfold generateSync
        rw [hr]
      rw [hres] at hok
      simp at hok
      obtain ⟨h1, _⟩ := hok
      subst h1
      exact (runJob_ok _ _ _ _ _ _ _ hr).2
  · intro cfg w prompt image_url ar seed fmt sample meta hok
    rcases hn : normalizeEditInput w.fetch image_url with c | b64
    · have hres : (editImageSync cfg w prompt image_url ar seed fmt).result =
          .error (.imageFetch c) := by
        unfold editImageSync
        rw [hn]
      rw [hres] at hok
      simp at hok
    · rcases hr : runJob cfg.max_post_retries w.postOutcome cfg.poll_timeout
          w.pollTrace with e | ⟨rid, s, res⟩
      · have hres : (editImageSync cfg w prompt image_url ar seed fmt).result =
            .error e := by
          unfold editImageSync
          rw [hn, hr]
        rw [hres] at hok
        simp at hok
      · have hres : (editImageSync cfg w prompt image_url ar seed fmt).result =
            .ok (s, [("request_id", rid), ("model", .str "flux-kontext-pro"),
              ("operation", .str "image_edit"),
              ("original_image", .str image_url),
              ("result", .obj (getResultObj res))]) := by
          unfold editImageSync
          rw [hn, hr]
        rw [hres] at hok
        simp at hok
        obtain ⟨h1, _⟩ := hok
        subst h1
        exact (runJob_ok _ _ _ _ _ _ _ hr).2

/-- A Ready poll body whose nested result has no sample. -/
def readyNoSample : List (String × JVal) :=
  [("status", .str "Ready"), ("result", .obj [])]

/-- A generation world that submits successfully and polls Ready with no
sample. -/
def genWorldNoSample : GenWorld :=
  ⟨fun _ => none, fun _ => .resp 200 [("id", .str "r1")],
   [(0, .success readyNoSample)]⟩

/-- Witness for C5: a first-poll-Ready run with a sample-less payload ends in
`MissingSampleError` carrying the raw result. -/
theorem C5_missing_sample_witness :
    extractSample readyNoSample = .error (.missingSample readyNoSample) ∧
    runJob 3 genWorldNoSample.postOutcome 180 genWorldNoSample.pollTrace =
      .error (.missingSample readyNoSample) ∧
    (generateSync fluxGenerateConfig genWorldNoSample "p" none none).result =
      .error (.missingSample readyNoSample) :=
  ⟨C5_missing_sample.1 readyNoSample rfl,
   C5_missing_sample.2.2.1 3 genWorldNoSample.postOutcome 180
     genWorldNoSample.pollTrace [("id", .str "r1")] (.str "r1") readyNoSample
     rfl rfl rfl (C5_missing_sample.1 readyNoSample rfl),
   C5_missing_sample.2.2.2.1 fluxGenerateConfig genWorldNoSample "p" none none
     (.missingSample readyNoSample)
     (C5_missing_sample.2.2.1 3 genWorldNoSample.postOutcome 180
       genWorldNoSample.pollTrace [("id", .str "r1")] (.str "r1") readyNoSample
       rfl rfl rfl (C5_missing_sample.1 readyNoSample rfl))⟩

/-- C4: for an edit source that is not already a `data:` URL, the adapter
downloads the bytes itself and re-encodes them as
`data:<content-type>;base64,<bytes>` using the response's declared content
type (defaulting to `image/jpeg` when absent), and any download failure — a
raised request exception or an HTTP error status — surfaces as
`ImageFetchError` wrapping the cause, failing the edit call. -/
theorem C4_edit_remote_fetch (image_url : String)
    (hnd : strStartsWith image_url "data:" = false) :
    (∀ r : HttpBytes, raisesForStatus r.status = false →
      normalizeEditInput (.resp r) image_url =
        .ok ("data:" ++ r.contentType.getD "image/jpeg" ++ ";base64," ++
          base64Encode r.content)) ∧
    (∀ msg, normalizeEditInput (.exc msg) image_url = .error msg) ∧
    (∀ r : HttpBytes, raisesForStatus r.status = true →
      normalizeEditInput (.resp r) image_url =
        .error ("HTTP error " ++ toString r.status)) ∧
    (∀ (cfg : AdapterConfig) (w : EditWorld) (prompt : String)
        (ar : Option String) (seed : Option Int) (fmt : String)
        (cause : String),
      normalizeEditInput w.fetch image_url = .error cause →
      (editImageSync cfg w prompt image_url ar seed fmt).result =
        .error (.imageFetch cause)) := by
  refine ⟨fun r hs => ?_, fun msg => ?_, fun r hs => ?_,
    fun cfg w prompt ar seed fmt cause hn => ?_⟩
  · unfold normalizeEditInput
    simp [hnd, hs]
  · unfold normalizeEditInput
    simp [hnd]
  · unfold normalizeEditInput
    simp [hnd, hs]
  · unfold editImageSync
    rw [hn]

/-- Witness for C4 at the spec's mocked-GET example. -/
theorem C4_edit_remote_fetch_witness :
    normalizeEditInput
        (.resp ⟨200, [10, 20, 30], some "image/jpeg"⟩) "https://x/y.jpg" =
      .ok ("data:" ++ (some "image/jpeg").getD "image/jpeg" ++ ";base64," ++
        base64Encode [10, 20, 30]) ∧
    normalizeEditInput (.exc "connection reset") "https://x/y.jpg" =
      .error "connection reset" ∧
    normalizeEditInput (.resp ⟨404, [], none⟩) "https://x/y.jpg" =
      .error ("HTTP error " ++ toString 404) ∧
    (editImageSync cfgWithAspect ⟨.exc "boom", fun _ => .readTimeout, []⟩ "p"
        "https://x/y.jpg" none none "jpeg").result =
      .error (.imageFetch "boom") :=
  ⟨(C4_edit_remote_fetch "https://x/y.jpg" (by decide)).1
      ⟨200, [10, 20, 30], some "image/jpeg"⟩ (by decide),
   (C4_edit_remote_fetch "https://x/y.jpg" (by decide)).2.1 "connection reset",
   (C4_edit_remote_fetch "https://x/y.jpg" (by decide)).2.2.1
      ⟨404, [], none⟩ (by decide),
   (C4_edit_remote_fetch "https://x/y.jpg" (by decide)).2.2.2 cfgWithAspect
      ⟨.exc "boom", fun _ => .readTimeout, []⟩ "p" none none "jpeg" "boom"
      (by rfl)⟩

/-- C8: an edit request with an empty image reference fails with the
validation error before any submission POST is issued; the edit endpoint is
fixed (independent of the configured model), every submission of an edit run
goes to it, and — for the tool layer's model `flux-kontext-max` — it differs
from the generation endpoint. -/
theorem C8_edit_validation_and_endpoint :
    (∀ (k prompt : String) (ar : Option String) (seed : Option Int)
        (fmt : String) (w : EditWorld), k ≠ "" →
      flux_edit_image (some k) prompt "" ar seed fmt w =
        ⟨[("status", .str "error"),
          ("message", .str "image_url is required")], 0⟩) ∧
    (∀ (cfg : AdapterConfig) (m : String),
      editEndpoint { cfg with model := m } = editEndpoint cfg) ∧
    (∀ (cfg : AdapterConfig) (w : EditWorld) (prompt image_url : String)
        (ar : Option String) (seed : Option Int) (fmt : String),
      (editImageSync cfg w prompt image_url ar seed fmt).endpoint = none ∨
      (editImageSync cfg w prompt image_url ar seed fmt).endpoint =
        some (editEndpoint cfg)) ∧
    (∀ cfg : AdapterConfig, cfg.model = "flux-kontext-max" →
      editEndpoint cfg ≠ generateEndpoint cfg) := by
  refine ⟨fun k prompt ar seed fmt w hk => ?_, fun cfg m => rfl,
    fun cfg w prompt image_url ar seed fmt => ?_, fun cfg hm heq => ?_⟩
  · simp [flux_edit_image, strTruthy, hk]
  · rcases hn : normalizeEditInput w.fetch image_url with c | b64
    · left
      unfold editImageSync
      rw [hn]
    · right
      unfold editImageSync
      rw [hn]
  · unfold editEndpoint generateEndpoint at heq
    rw [hm] at heq
    have hd := congrArg String.data heq
    rw [String.data_append, String.data_append, String.data_append,
      List.append_assoc] at hd
    have h2 := List.append_cancel_left hd
    exact absurd h2 (by decide)

/-- Witness for C8 at the tool layer's configuration. -/
theorem C8_edit_validation_and_endpoint_witness :
    flux_edit_image (some "key") "p" "" none none "jpeg" editWorldNoFetch =
      ⟨[("status", .str "error"), ("message", .str "image_url is required")],
       0⟩ ∧
    editEndpoint { fluxGenerateConfig with model := "other" } =
      editEndpoint fluxGenerateConfig ∧
    ((editImageSync fluxGenerateConfig editWorldNoFetch "p" "https://x"
        none none "jpeg").endpoint = none ∨
     (editImageSync fluxGenerateConfig editWorldNoFetch "p" "https://x"
        none none "jpeg").endpoint =
       some (editEndpoint fluxGenerateConfig)) ∧
    editEndpoint fluxGenerateConfig ≠ generateEndpoint fluxGenerateConfig :=
  ⟨C8_edit_validation_and_endpoint.1 "key" "p" none none "jpeg"
      editWorldNoFetch (by decide),
   C8_edit_validation_and_endpoint.2.1 fluxGenerateConfig "other",
   C8_edit_validation_and_endpoint.2.2.1 fluxGenerateConfig editWorldNoFetch
      "p" "https://x" none none "jpeg",
   C8_edit_validation_and_endpoint.2.2.2 fluxGenerateConfig rfl⟩

/-- C9: both tools always return a structured dictionary — either the complete
success shape (full image reference plus metadata, plus the original image for
edits) or the tagged error shape with a message — for every environment,
input, and world; no exception escapes the tool boundary and no partial
result is returned. -/
theorem C9_structured_tool_results (env_key : Option String)
    (prompt image_url : String) (aspect_ratio : Option String)
    (seed : Option Int) (output_format : String) (gw : GenWorld)
    (ew : EditWorld) :
    ((∃ img meta, (flux_generate env_key prompt gw).response =
        [("status", .str "success"), ("image", img), ("meta", .obj meta)]) ∨
     (∃ msg, (flux_generate env_key prompt gw).response =
        [("status", .str "error"), ("message", .str msg)])) ∧
    ((∃ img meta, (flux_edit_image env_key prompt image_url aspect_ratio seed
          output_format ew).response =
        [("status", .str "success"), ("edited_image", img),
         ("original_image", .str image_url), ("meta", .obj meta)]) ∨
     (∃ msg, (flux_edit_image env_key prompt image_url aspect_ratio seed
          output_format ew).response =
        [("status", .str "error"), ("message", .str msg)])) := by
  constructor
  · by_cases hk : strTruthy env_key = true
    · rcases hr : (generateSync fluxGenerateConfig gw prompt none none).result
        with e | ⟨img, meta⟩
      · right
        exact ⟨e.message, by simp [flux_generate, hk, hr]⟩
      · left
        exact ⟨img, meta, by simp [flux_generate, hk, hr]⟩
    · right
      refine ⟨"BFL_API_KEY not set", ?_⟩
      simp only [Bool.not_eq_true] at hk
      simp [flux_generate, hk]
  · by_cases hk : strTruthy env_key = true
    · by_cases hu : image_url = ""
      · right
        exact ⟨"image_url is required", by simp [flux_edit_image, hk, hu]⟩
      · rcases hr : (editImageSync (fluxEditConfig aspect_ratio) ew prompt
            image_url aspect_ratio seed output_format).result
          with e | ⟨img, meta⟩
        · right
          exact ⟨e.message, by simp [flux_edit_image, hk, hu, hr]⟩
        · left
          exact ⟨img, meta, by simp [flux_edit_image, hk, hu, hr]⟩
    · right
      refine ⟨"BFL_API_KEY not set", ?_⟩
      simp only [Bool.not_eq_true] at hk
      simp [flux_edit_image, hk]
